import Mathlib

set_option maxHeartbeats 1000000

/-!
Shallow embedding of the single source file of the repository,
src/streaming-data.py: the class StreamingDataFetcher with its three
methods get_spotify_data, get_youtube_music_data and get_streaming_data.

Modelling conventions:
* Python dictionaries produced by the code are association lists
  List (String × JVal) in insertion order; a missing key in a backend
  result is an Option field set to none.
* Backend calls are inputs: a function from the query string the code
  builds to Except Unit (result list), Except.error modelling an
  exception raised by the call.  A raised exception inside a try block
  (KeyError / IndexError from direct indexing included) is an
  Except.error value that the enclosing method maps to none, exactly as
  the except clauses at lines 64-66 and 110-112 of the source do.
* Python truthiness is modelled explicitly where the code relies on it
  (artists lists, views counts, result dictionaries).
-/

/-- JSON-style scalar values held by the dictionaries the script builds
(None, integers, strings). -/
inductive JVal where
  | null : JVal
  | nat : Nat → JVal
  | str : String → JVal
  deriving DecidableEq, Repr

/-- Backend A (Spotify) track item as consumed by get_spotify_data.
Every field the code reads with direct indexing (lines 57-60) is an
Option; none models the key being absent so that the indexing raises. -/
structure SpotifyTrack where
  popularity : Option Nat
  external_url : Option String
  album_name : Option String
  release_date : Option String
  deriving DecidableEq, Repr

/-- The query string built at line 51 of the source. -/
def spotifyQuery (artist_name track_title : String) : String :=
  "track:" ++ track_title ++ " artist:" ++ artist_name

/-- The dictionary literal of lines 56-61: Except.error models the
KeyError raised when a directly indexed field is missing. -/
def spotifyProject (track : SpotifyTrack) : Except Unit (List (String × JVal)) :=
  match track.popularity with
  | none => .error ()
  | some p =>
    match track.external_url with
    | none => .error ()
    | some u =>
      match track.album_name with
      | none => .error ()
      | some al =>
        match track.release_date with
        | none => .error ()
        | some rd =>
          .ok [("popularity", .nat p), ("external_url", .str u),
               ("album", .str al), ("release_date", .str rd)]

/-- get_spotify_data (lines 39-66).  search is the behaviour of
self.sp.search as a function of the query string; Except.error is a
raised exception.  The empty list covers both a falsy results object and
an empty items list (line 54); any exception, the KeyError of
spotifyProject included, is caught at lines 64-66 and becomes None. -/
def get_spotify_data (search : String → Except Unit (List SpotifyTrack))
    (artist_name track_title : String) : Option (List (String × JVal)) :=
  match search (spotifyQuery artist_name track_title) with
  | .error _ => none
  | .ok [] => none
  | .ok (track :: _) =>
    match spotifyProject track with
    | .error _ => none
    | .ok d => some d

/-- One element of a backend-B artists list; name is result of .get,
none when the key is missing. -/
structure YTArtist where
  name : Option String
  deriving DecidableEq, Repr

/-- Backend B (YouTube Music) search result entry as consumed by
get_youtube_music_data; every field read with .get is an Option. -/
structure YTResult where
  resultType : Option String
  artists : Option (List YTArtist)
  title : Option String
  views : Option Nat
  videoId : Option String
  deriving DecidableEq, Repr

/-- The query string built at line 83 of the source. -/
def ytQuery (artist_name track_title : String) : String :=
  artist_name ++ " " ++ track_title

/-- Python truthiness of result.get of the artists key: None and the
empty list are falsy. -/
def artistsTruthy : Option (List YTArtist) → Bool
  | none => false
  | some l => !l.isEmpty

/-- Python truthiness of result.get of the views key under the integer
view-count model of the data: None and 0 are falsy. -/
def viewsTruthy : Option Nat → Bool
  | none => false
  | some n => n != 0

/-- The dictionary value stored for the views key: Python None when the
key was absent. -/
def jOfViews : Option Nat → JVal
  | none => .null
  | some n => .nat n

/-- One exact-match test of line 90 (rt is the string song) or line 95
(rt is video), with Python short-circuit evaluation: the first listed
artist is read only after the artists list tested truthy.  The
Except.error branches are the IndexError a bare index-0 access would
raise; they are proved unreachable below. -/
def exactMatch (rt artist_name track_title : String) (r : YTResult) :
    Except Unit Bool :=
  if r.resultType == some rt then
    if artistsTruthy r.artists then
      match r.artists with
      | none => .error ()
      | some l =>
        match l.get? 0 with
        | none => .error ()
        | some a0 => .ok (a0.name == some artist_name && r.title == some track_title)
    else .ok false
  else .ok false

/-- Total Boolean form of the exact-match test, proved equal to
exactMatch below. -/
def exactMatchB (rt artist_name track_title : String) (r : YTResult) : Bool :=
  r.resultType == some rt && artistsTruthy r.artists &&
    (match r.artists with
     | some (a0 :: _) => a0.name == some artist_name && r.title == some track_title
     | _ => false)

/-- The dictionary of lines 91-94 / 103-106: views copied as-is via .get
(None when absent), URL built with the music-site scheme; Except.error is
the KeyError of the direct index of videoId at line 93 / line 105. -/
def ytSongEntry (r : YTResult) : Except Unit (List (String × JVal)) :=
  match r.videoId with
  | none => .error ()
  | some vid =>
    .ok [("views", jOfViews r.views),
         ("url", .str ("https://music.youtube.com/watch?v=" ++ vid))]

/-- The dictionary of lines 96-99: URL built with the video-site scheme;
Except.error is the KeyError of the direct index of videoId at line 98. -/
def ytVideoEntry (r : YTResult) : Except Unit (List (String × JVal)) :=
  match r.videoId with
  | none => .error ()
  | some vid =>
    .ok [("views", jOfViews r.views),
         ("url", .str ("https://www.youtube.com/watch?v=" ++ vid))]

/-- The fallback test of line 102: resultType is song and views is
truthy. -/
def fallbackCond (r : YTResult) : Bool :=
  r.resultType == some "song" && viewsTruthy r.views

/-- The first loop of lines 89-99: a single pass over the results; each
entry is tested for an exact song match and, failing that, an exact
video match, and the first entry passing either test is returned. -/
def exactLoop (artist_name track_title : String) :
    List YTResult → Except Unit (Option (List (String × JVal)))
  | [] => .ok none
  | r :: rs =>
    match exactMatch "song" artist_name track_title r with
    | .error e => .error e
    | .ok true =>
      match ytSongEntry r with
      | .error e => .error e
      | .ok d => .ok (some d)
    | .ok false =>
      match exactMatch "video" artist_name track_title r with
      | .error e => .error e
      | .ok true =>
        match ytVideoEntry r with
        | .error e => .error e
        | .ok d => .ok (some d)
      | .ok false => exactLoop artist_name track_title rs

/-- The second loop of lines 100-106: the first result with resultType
song and truthy views is returned with the music-site URL. -/
def fallbackLoop : List YTResult → Except Unit (Option (List (String × JVal)))
  | [] => .ok none
  | r :: rs =>
    if fallbackCond r then
      match ytSongEntry r with
      | .error e => .error e
      | .ok d => .ok (some d)
    else fallbackLoop rs

/-- The body of the try block, lines 87-109: an empty (falsy) results
list short-circuits to None; otherwise the exact-match pass runs first
and the fallback pass only if it selected nothing. -/
def ytBody (artist_name track_title : String) (results : List YTResult) :
    Except Unit (Option (List (String × JVal))) :=
  if results.isEmpty then .ok none
  else
    match exactLoop artist_name track_title results with
    | .error e => .error e
    | .ok (some d) => .ok (some d)
    | .ok none => fallbackLoop results

/-- get_youtube_music_data (lines 68-112).  ytInit is whether self.yt is
non-None after construction (lines 25-36); search is the behaviour of
self.yt.search as a function of the query string.  Any exception (from
the call or from the body) is caught at lines 110-112 and becomes
None. -/
def get_youtube_music_data (ytInit : Bool)
    (search : String → Except Unit (List YTResult))
    (artist_name track_title : String) : Option (List (String × JVal)) :=
  if !ytInit then none
  else
    match search (ytQuery artist_name track_title) with
    | .error _ => none
    | .ok results =>
      match ytBody artist_name track_title results with
      | .error _ => none
      | .ok res => res

/-- Lines 136-137 / 144-145: data of a backend replaces the initial
empty dictionary only when truthy (non-None and non-empty). -/
def assignIfTruthy : Option (List (String × JVal)) → List (String × JVal)
  | none => []
  | some l => if l.isEmpty then [] else l

/-- The aggregate dictionary built at lines 125-130: the four keys are
always present. -/
structure AggregateRecord where
  artist : String
  title : String
  spotify : List (String × JVal)
  youtube_music : List (String × JVal)
  deriving DecidableEq, Repr

/-- get_streaming_data (lines 114-150): builds the record, runs both
lookups and overwrites the empty per-backend dictionaries with any
truthy result. -/
def get_streaming_data (spSearch : String → Except Unit (List SpotifyTrack))
    (ytInit : Bool) (ytSearch : String → Except Unit (List YTResult))
    (artist_name track_title : String) : AggregateRecord :=
  { artist := artist_name
    title := track_title
    spotify := assignIfTruthy (get_spotify_data spSearch artist_name track_title)
    youtube_music :=
      assignIfTruthy (get_youtube_music_data ytInit ytSearch artist_name track_title) }

/-- Spec-side projection of a backend-A candidate, following the spec's
words: only popularity and url survive into the aggregate (album and
release date dropped at the NormalizedEntry boundary). -/
def specBackendAEntry (p : Nat) (u : String) : List (String × JVal) :=
  [("popularity", .nat p), ("url", .str u)]

theorem exactMatch_eq (rt a t : String) (r : YTResult) :
    exactMatch rt a t r = Except.ok (exactMatchB rt a t r) := by
  rcases r with ⟨ort, oarts, oti, ovs, ovid⟩
  rcases oarts with _ | l
  · simp [exactMatch, exactMatchB, artistsTruthy]
  · rcases l with _ | ⟨a0, rest⟩
    · simp [exactMatch, exactMatchB, artistsTruthy]
    · cases hc : (ort == some rt) <;>
        simp [exactMatch, exactMatchB, artistsTruthy, hc]

theorem jOfViews_null_or_nat (o : Option Nat) :
    jOfViews o = JVal.null ∨ ∃ n, jOfViews o = JVal.nat n := by
  cases o <;> simp [jOfViews]

theorem ytSongEntry_of_videoId (r : YTResult) (vid : String)
    (hv : r.videoId = some vid) :
    ytSongEntry r = Except.ok [("views", jOfViews r.views),
      ("url", JVal.str ("https://music.youtube.com/watch?v=" ++ vid))] := by
  unfold ytSongEntry
  rw [hv]

theorem ytVideoEntry_of_videoId (r : YTResult) (vid : String)
    (hv : r.videoId = some vid) :
    ytVideoEntry r = Except.ok [("views", jOfViews r.views),
      ("url", JVal.str ("https://www.youtube.com/watch?v=" ++ vid))] := by
  unfold ytVideoEntry
  rw [hv]

theorem ytSongEntry_shape (r : YTResult) (d : List (String × JVal))
    (h : ytSongEntry r = Except.ok d) :
    ∃ vid, r.videoId = some vid ∧
      d = [("views", jOfViews r.views),
           ("url", JVal.str ("https://music.youtube.com/watch?v=" ++ vid))] := by
  unfold ytSongEntry at h
  cases hv : r.videoId with
  | none => rw [hv] at h; simp at h
  | some vid =>
    rw [hv] at h
    simp only [Except.ok.injEq] at h
    exact ⟨vid, rfl, h.symm⟩

theorem ytVideoEntry_shape (r : YTResult) (d : List (String × JVal))
    (h : ytVideoEntry r = Except.ok d) :
    ∃ vid, r.videoId = some vid ∧
      d = [("views", jOfViews r.views),
           ("url", JVal.str ("https://www.youtube.com/watch?v=" ++ vid))] := by
  unfold ytVideoEntry at h
  cases hv : r.videoId with
  | none => rw [hv] at h; simp at h
  | some vid =>
    rw [hv] at h
    simp only [Except.ok.injEq] at h
    exact ⟨vid, rfl, h.symm⟩

theorem exactLoop_cons_skip (a t : String) (r : YTResult) (rs : List YTResult)
    (h1 : exactMatchB "song" a t r = false)
    (h2 : exactMatchB "video" a t r = false) :
    exactLoop a t (r :: rs) = exactLoop a t rs := by
  simp [exactLoop, exactMatch_eq, h1, h2]

theorem exactLoop_cons_song (a t : String) (r : YTResult) (rs : List YTResult)
    (vid : String) (h1 : exactMatchB "song" a t r = true)
    (hv : r.videoId = some vid) :
    exactLoop a t (r :: rs) = Except.ok (some [("views", jOfViews r.views),
      ("url", JVal.str ("https://music.youtube.com/watch?v=" ++ vid))]) := by
  simp [exactLoop, exactMatch_eq, h1, ytSongEntry_of_videoId r vid hv]

theorem exactLoop_cons_video (a t : String) (r : YTResult) (rs : List YTResult)
    (vid : String) (h1 : exactMatchB "song" a t r = false)
    (h2 : exactMatchB "video" a t r = true) (hv : r.videoId = some vid) :
    exactLoop a t (r :: rs) = Except.ok (some [("views", jOfViews r.views),
      ("url", JVal.str ("https://www.youtube.com/watch?v=" ++ vid))]) := by
  simp [exactLoop, exactMatch_eq, h1, h2, ytVideoEntry_of_videoId r vid hv]

theorem exactLoop_append_skip (a t : String) (pre rest : List YTResult)
    (h : ∀ x ∈ pre, exactMatchB "song" a t x = false ∧
        exactMatchB "video" a t x = false) :
    exactLoop a t (pre ++ rest) = exactLoop a t rest := by
  induction pre with
  | nil => rfl
  | cons r rs ih =>
    have hr := h r (by simp)
    rw [List.cons_append, exactLoop_cons_skip a t r _ hr.1 hr.2]
    exact ih (fun x hx => h x (by simp [hx]))

theorem exactLoop_none_of_all (a t : String) (l : List YTResult)
    (h : ∀ x ∈ l, exactMatchB "song" a t x = false ∧
        exactMatchB "video" a t x = false) :
    exactLoop a t l = Except.ok none := by
  have h2 := exactLoop_append_skip a t l [] h
  rw [List.append_nil] at h2
  rw [h2]
  rfl

theorem fallbackLoop_cons_skip (r : YTResult) (rs : List YTResult)
    (h : fallbackCond r = false) :
    fallbackLoop (r :: rs) = fallbackLoop rs := by
  simp [fallbackLoop, h]

theorem fallbackLoop_cons_sel (r : YTResult) (rs : List YTResult) (vid : String)
    (h : fallbackCond r = true) (hv : r.videoId = some vid) :
    fallbackLoop (r :: rs) = Except.ok (some [("views", jOfViews r.views),
      ("url", JVal.str ("https://music.youtube.com/watch?v=" ++ vid))]) := by
  simp [fallbackLoop, h, ytSongEntry_of_videoId r vid hv]

theorem fallbackLoop_append_skip (pre rest : List YTResult)
    (h : ∀ x ∈ pre, fallbackCond x = false) :
    fallbackLoop (pre ++ rest) = fallbackLoop rest := by
  induction pre with
  | nil => rfl
  | cons r rs ih =>
    rw [List.cons_append, fallbackLoop_cons_skip r _ (h r (by simp))]
    exact ih (fun x hx => h x (by simp [hx]))

theorem exactLoop_shape (a t : String) (l : List YTResult)
    (d : List (String × JVal)) (h : exactLoop a t l = Except.ok (some d)) :
    ∃ v u, d = [("views", v), ("url", JVal.str u)] ∧
      (v = JVal.null ∨ ∃ n, v = JVal.nat n) := by
  induction l with
  | nil => simp [exactLoop] at h
  | cons r rs ih =>
    rw [exactLoop, exactMatch_eq, exactMatch_eq] at h
    cases h1 : exactMatchB "song" a t r with
    | true =>
      rw [h1] at h
      cases hs : ytSongEntry r with
      | error e => rw [hs] at h; simp at h
      | ok d2 =>
        rw [hs] at h
        simp only [Except.ok.injEq, Option.some.injEq] at h
        obtain ⟨vid, _, hd⟩ := ytSongEntry_shape r d2 hs
        subst h
        exact ⟨jOfViews r.views, _, hd, jOfViews_null_or_nat r.views⟩
    | false =>
      rw [h1] at h
      cases h2 : exactMatchB "video" a t r with
      | true =>
        rw [h2] at h
        cases hs : ytVideoEntry r with
        | error e => rw [hs] at h; simp at h
        | ok d2 =>
          rw [hs] at h
          simp only [Except.ok.injEq, Option.some.injEq] at h
          obtain ⟨vid, _, hd⟩ := ytVideoEntry_shape r d2 hs
          subst h
          exact ⟨jOfViews r.views, _, hd, jOfViews_null_or_nat r.views⟩
      | false =>
        rw [h2] at h
        exact ih h

theorem fallbackLoop_shape (l : List YTResult) (d : List (String × JVal))
    (h : fallbackLoop l = Except.ok (some d)) :
    ∃ v u, d = [("views", v), ("url", JVal.str u)] ∧
      (v = JVal.null ∨ ∃ n, v = JVal.nat n) := by
  induction l with
  | nil => simp [fallbackLoop] at h
  | cons r rs ih =>
    rw [fallbackLoop] at h
    cases hc : fallbackCond r with
    | true =>
      rw [hc] at h
      simp only [if_true] at h
      cases hs : ytSongEntry r with
      | error e => rw [hs] at h; simp at h
      | ok d2 =>
        rw [hs] at h
        simp only [Except.ok.injEq, Option.some.injEq] at h
        obtain ⟨vid, _, hd⟩ := ytSongEntry_shape r d2 hs
        subst h
        exact ⟨jOfViews r.views, _, hd, jOfViews_null_or_nat r.views⟩
    | false =>
      rw [hc] at h
      simp only [Bool.false_eq_true, if_false] at h
      exact ih h

theorem ytBody_shape (a t : String) (results : List YTResult)
    (d : List (String × JVal)) (h : ytBody a t results = Except.ok (some d)) :
    ∃ v u, d = [("views", v), ("url", JVal.str u)] ∧
      (v = JVal.null ∨ ∃ n, v = JVal.nat n) := by
  unfold ytBody at h
  cases he : results.isEmpty with
  | true => rw [he] at h; simp at h
  | false =>
    rw [he] at h
    simp only [Bool.false_eq_true, if_false] at h
    cases hl : exactLoop a t results with
    | error e => rw [hl] at h; simp at h
    | ok o =>
      rw [hl] at h
      cases o with
      | some d2 =>
        simp only [Except.ok.injEq, Option.some.injEq] at h
        subst h
        exact exactLoop_shape a t results _ hl
      | none => exact fallbackLoop_shape results d h

theorem get_youtube_music_data_shape (ytInit : Bool)
    (search : String → Except Unit (List YTResult)) (a t : String) :
    get_youtube_music_data ytInit search a t = none ∨
    ∃ v u, get_youtube_music_data ytInit search a t =
        some [("views", v), ("url", JVal.str u)] ∧
      (v = JVal.null ∨ ∃ n, v = JVal.nat n) := by
  cases ytInit with
  | false => left; rfl
  | true =>
    cases hs : search (ytQuery a t) with
    | error e => left; simp [get_youtube_music_data, hs]
    | ok results =>
      cases hb : ytBody a t results with
      | error e => left; simp [get_youtube_music_data, hs, hb]
      | ok o =>
        cases o with
        | none => left; simp [get_youtube_music_data, hs, hb]
        | some d =>
          right
          obtain ⟨v, u, hd, hv⟩ := ytBody_shape a t results d hb
          subst hd
          exact ⟨v, u, by simp [get_youtube_music_data, hs, hb], hv⟩

theorem get_spotify_data_shape (search : String → Except Unit (List SpotifyTrack))
    (a t : String) :
    get_spotify_data search a t = none ∨
    ∃ p u al rd, get_spotify_data search a t =
      some [("popularity", JVal.nat p), ("external_url", JVal.str u),
            ("album", JVal.str al), ("release_date", JVal.str rd)] := by
  unfold get_spotify_data
  cases hs : search (spotifyQuery a t) with
  | error e => left; rfl
  | ok l =>
    cases l with
    | nil => left; rfl
    | cons track rest =>
      rcases track with ⟨p, u, al, rd⟩
      rcases p with _ | p
      · left; rfl
      rcases u with _ | u
      · left; rfl
      rcases al with _ | al
      · left; rfl
      rcases rd with _ | rd
      · left; rfl
      right
      exact ⟨p, u, al, rd, rfl⟩

theorem spotifyProject_error_of (track : SpotifyTrack)
    (h : track.popularity = none ∨ track.external_url = none ∨
        track.album_name = none ∨ track.release_date = none) :
    spotifyProject track = Except.error () := by
  rcases track with ⟨p, u, al, rd⟩
  rcases p with _ | p
  · rfl
  rcases u with _ | u
  · rfl
  rcases al with _ | al
  · rfl
  rcases rd with _ | rd
  · rfl
  simp at h

/-- A backend-A item with all four read fields present. -/
def spTrackC : SpotifyTrack :=
  { popularity := some 50, external_url := some "u",
    album_name := some "al", release_date := some "rd" }

/-- A backend-A behaviour returning one item for any query. -/
def spSearchC : String → Except Unit (List SpotifyTrack) :=
  fun _ => .ok [spTrackC]

/-- A backend-A behaviour raising on any query. -/
def spSearchErr : String → Except Unit (List SpotifyTrack) :=
  fun _ => .error ()

/-- A backend-A item whose popularity key is missing. -/
def spTrackMissing : SpotifyTrack :=
  { popularity := none, external_url := some "u",
    album_name := some "al", release_date := some "rd" }

/-- A backend-A behaviour returning only spTrackMissing. -/
def spSearchMissing : String → Except Unit (List SpotifyTrack) :=
  fun _ => .ok [spTrackMissing]

/-- A backend-B behaviour raising on any query. -/
def ytSearchErr : String → Except Unit (List YTResult) :=
  fun _ => .error ()

/-- An exact song match for the query (A, T). -/
def sExact : YTResult :=
  { resultType := some "song", artists := some [{ name := some "A" }],
    title := some "T", views := some 7, videoId := some "ss" }

/-- An exact video match for the query (A, T). -/
def vExact : YTResult :=
  { resultType := some "video", artists := some [{ name := some "A" }],
    title := some "T", views := some 5, videoId := some "vv" }

/-- An exact song match for (A, T) whose views key is absent. -/
def sNoViews : YTResult :=
  { resultType := some "song", artists := some [{ name := some "A" }],
    title := some "T", views := none, videoId := some "v1" }

/-- A song entry matching no query (A, T), views present but zero. -/
def fZero : YTResult :=
  { resultType := some "song", artists := some [{ name := some "B" }],
    title := some "X", views := some 0, videoId := some "x" }

/-- A song entry matching no query (A, T), views present and nonzero. -/
def fGood : YTResult :=
  { resultType := some "song", artists := some [{ name := some "B" }],
    title := some "X", views := some 9, videoId := some "fv" }

/-- An exact song match for (A, T) whose videoId key is absent. -/
def sVidMissing : YTResult :=
  { resultType := some "song", artists := some [{ name := some "A" }],
    title := some "T", views := some 3, videoId := none }

/-- A song entry whose artists key is absent. -/
def rNoArtists : YTResult :=
  { resultType := some "song", artists := none,
    title := some "T", views := some 1, videoId := some "x" }

/-- Backend-B behaviour: one exact song match without views. -/
def ytSearchNoViews : String → Except Unit (List YTResult) :=
  fun _ => .ok [sNoViews]

/-- Backend-B behaviour: an exact video match before an exact song match. -/
def ytSearchVideoFirst : String → Except Unit (List YTResult) :=
  fun _ => .ok [vExact, sExact]

/-- Backend-B behaviour: a single zero-views song, no exact match. -/
def ytSearchZeroViews : String → Except Unit (List YTResult) :=
  fun _ => .ok [fZero]

/-- Backend-B behaviour: a zero-views song then a nonzero-views song. -/
def ytSearchFallback : String → Except Unit (List YTResult) :=
  fun _ => .ok [fZero, fGood]

/-- Backend-B behaviour: one exact song match without a videoId. -/
def ytSearchVidMissing : String → Except Unit (List YTResult) :=
  fun _ => .ok [sVidMissing]

/-- Spec-side test: the dictionary holds a metric key with a non-null
value. -/
def hasMetricValue (d : List (String × JVal)) : Bool :=
  d.any fun p => (p.1 == "popularity" || p.1 == "views") && p.2 != JVal.null

/-- Spec-side test: the dictionary holds a URL key with a non-null
value. -/
def hasUrlValue (d : List (String × JVal)) : Bool :=
  d.any fun p => (p.1 == "url" || p.1 == "external_url") && p.2 != JVal.null

/-- Spec-side invariant of section 3 of the spec: a NormalizedEntry is
either fully empty or has both a metric value and a URL value. -/
def entryBalanced (d : List (String × JVal)) : Bool :=
  d.isEmpty || (hasMetricValue d && hasUrlValue d)

/-- C1 counterexample: with backend A returning one item carrying
popularity 50, URL u, album al and release date rd, the spotify entry of
the aggregate record keeps all four fields (the URL under the key
external_url): its key list is not the two-key list of the claim and it
differs from the spec-side two-field projection. -/
theorem c1_spotify_projection_cex :
    (get_streaming_data spSearchC true ytSearchErr "A" "T").spotify =
      [("popularity", JVal.nat 50), ("external_url", JVal.str "u"),
       ("album", JVal.str "al"), ("release_date", JVal.str "rd")] ∧
    (get_streaming_data spSearchC true ytSearchErr "A" "T").spotify.map Prod.fst ≠
      ["popularity", "url"] ∧
    (get_streaming_data spSearchC true ytSearchErr "A" "T").spotify ≠
      specBackendAEntry 50 "u" := by
  refine ⟨rfl, ?_, ?_⟩ <;> decide

/-- C1 (amended): for every query for which backend A returns at least
one item whose four read fields are present, the spotify entry of the
aggregate record is exactly the four-field dictionary popularity,
external_url, album, release_date taken from the first item: album and
release date are not dropped, and the URL is stored under the key
external_url, not url. -/
theorem c1_spotify_entry_four_fields
    (spSearch : String → Except Unit (List SpotifyTrack)) (ytInit : Bool)
    (ytSearch : String → Except Unit (List YTResult)) (a t : String)
    (track : SpotifyTrack) (rest : List SpotifyTrack)
    (p : Nat) (u al rd : String)
    (hsearch : spSearch (spotifyQuery a t) = Except.ok (track :: rest))
    (hp : track.popularity = some p) (hu : track.external_url = some u)
    (hal : track.album_name = some al) (hrd : track.release_date = some rd) :
    (get_streaming_data spSearch ytInit ytSearch a t).spotify =
      [("popularity", JVal.nat p), ("external_url", JVal.str u),
       ("album", JVal.str al), ("release_date", JVal.str rd)] := by
  have hproj : spotifyProject track = Except.ok
      [("popularity", JVal.nat p), ("external_url", JVal.str u),
       ("album", JVal.str al), ("release_date", JVal.str rd)] := by
    unfold spotifyProject
    rw [hp, hu, hal, hrd]
  have hdata : get_spotify_data spSearch a t = some
      [("popularity", JVal.nat p), ("external_url", JVal.str u),
       ("album", JVal.str al), ("release_date", JVal.str rd)] := by
    unfold get_spotify_data
    rw [hsearch]
    simp [hproj]
  simp [get_streaming_data, hdata, assignIfTruthy]

/-- C1 witness: the amended four-field theorem applied at a concrete
backend behaviour. -/
theorem c1_spotify_entry_four_fields_witness :
    (get_streaming_data spSearchC true ytSearchErr "W" "S").spotify =
      [("popularity", JVal.nat 50), ("external_url", JVal.str "u"),
       ("album", JVal.str "al"), ("release_date", JVal.str "rd")] :=
  c1_spotify_entry_four_fields spSearchC true ytSearchErr "W" "S" spTrackC []
    50 "u" "al" "rd" rfl rfl rfl rfl rfl

/-- C2 counterexample: an exact song match whose views key is absent is
selected by tier 1, producing a dictionary with a URL value but a null
views value: a URL without a metric value, so the claimed invariant is
false on this reachable output. -/
theorem c2_url_without_metric_cex :
    (get_streaming_data spSearchErr true ytSearchNoViews "A" "T").youtube_music =
      [("views", JVal.null),
       ("url", JVal.str "https://music.youtube.com/watch?v=v1")] ∧
    entryBalanced
      ((get_streaming_data spSearchErr true ytSearchNoViews "A" "T").youtube_music) =
      false := by
  exact ⟨rfl, rfl⟩

/-- C2 (amended): every produced NormalizedEntry is either the empty
dictionary or carries both a metric key and a URL key with a string URL
value; the spotify entry always has a numeric popularity, but the
youtube_music views value can be null (views key absent in the selected
exact match) next to a present URL, so a URL may appear without a metric
value. -/
theorem c2_entry_shapes (spSearch : String → Except Unit (List SpotifyTrack))
    (ytInit : Bool) (ytSearch : String → Except Unit (List YTResult))
    (a t : String) :
    ((get_streaming_data spSearch ytInit ytSearch a t).spotify = [] ∨
      ∃ p u al rd, (get_streaming_data spSearch ytInit ytSearch a t).spotify =
        [("popularity", JVal.nat p), ("external_url", JVal.str u),
         ("album", JVal.str al), ("release_date", JVal.str rd)]) ∧
    ((get_streaming_data spSearch ytInit ytSearch a t).youtube_music = [] ∨
      ∃ v u, (get_streaming_data spSearch ytInit ytSearch a t).youtube_music =
          [("views", v), ("url", JVal.str u)] ∧
        (v = JVal.null ∨ ∃ n, v = JVal.nat n)) := by
  constructor
  · rcases get_spotify_data_shape spSearch a t with h | ⟨p, u, al, rd, h⟩
    · left
      simp [get_streaming_data, h, assignIfTruthy]
    · right
      exact ⟨p, u, al, rd, by simp [get_streaming_data, h, assignIfTruthy]⟩
  · rcases get_youtube_music_data_shape ytInit ytSearch a t with h | ⟨v, u, h, hv⟩
    · left
      simp [get_streaming_data, h, assignIfTruthy]
    · right
      exact ⟨v, u, by simp [get_streaming_data, h, assignIfTruthy], hv⟩

theorem get_yt_of_exactLoop (ytSearch : String → Except Unit (List YTResult))
    (a t : String) (results : List YTResult) (d : List (String × JVal))
    (hsearch : ytSearch (ytQuery a t) = Except.ok results)
    (hne : results.isEmpty = false)
    (hloop : exactLoop a t results = Except.ok (some d)) :
    get_youtube_music_data true ytSearch a t = some d := by
  simp [get_youtube_music_data, hsearch, ytBody, hne, hloop]

theorem get_yt_of_fallback (ytSearch : String → Except Unit (List YTResult))
    (a t : String) (results : List YTResult) (d : List (String × JVal))
    (hsearch : ytSearch (ytQuery a t) = Except.ok results)
    (hne : results.isEmpty = false)
    (hnoexact : exactLoop a t results = Except.ok none)
    (hfb : fallbackLoop results = Except.ok (some d)) :
    get_youtube_music_data true ytSearch a t = some d := by
  simp [get_youtube_music_data, hsearch, ytBody, hne, hnoexact, hfb]

/-- C3 counterexample: the result list of ytSearchVideoFirst holds an
exact song match (sExact) for the query (A, T), yet the resolver returns
the entry of the exact VIDEO match placed earlier in the list (URL with
the www.youtube.com scheme): the song tier does not take precedence over
the video tier across different list positions. -/
theorem c3_video_before_song_cex :
    exactMatchB "song" "A" "T" sExact = true ∧
    get_youtube_music_data true ytSearchVideoFirst "A" "T" =
      some [("views", JVal.nat 5),
            ("url", JVal.str "https://www.youtube.com/watch?v=vv")] := by
  exact ⟨rfl, rfl⟩

/-- C3 (amended): the two exact-match tests are applied in a single pass
over the list in backend order; the first entry passing either test is
selected (the song test tried first on each entry).  So with every entry
before r failing both tests, r is selected: as a song match with the
music-site URL, or as a video match with the video-site URL — even when
an exact song match occurs later in the list. -/
theorem c3_single_pass_selection
    (ytSearch : String → Except Unit (List YTResult)) (a t : String)
    (pre post : List YTResult) (r : YTResult) (vid : String)
    (hsearch : ytSearch (ytQuery a t) = Except.ok (pre ++ r :: post))
    (hpre : ∀ x ∈ pre, exactMatchB "song" a t x = false ∧
        exactMatchB "video" a t x = false)
    (hvid : r.videoId = some vid) :
    (exactMatchB "song" a t r = true →
      get_youtube_music_data true ytSearch a t =
        some [("views", jOfViews r.views),
              ("url", JVal.str ("https://music.youtube.com/watch?v=" ++ vid))]) ∧
    (exactMatchB "song" a t r = false → exactMatchB "video" a t r = true →
      get_youtube_music_data true ytSearch a t =
        some [("views", jOfViews r.views),
              ("url", JVal.str ("https://www.youtube.com/watch?v=" ++ vid))]) := by
  constructor
  · intro hsong
    exact get_yt_of_exactLoop ytSearch a t _ _ hsearch (by simp)
      (by rw [exactLoop_append_skip a t pre _ hpre,
              exactLoop_cons_song a t r post vid hsong hvid])
  · intro hs hv2
    exact get_yt_of_exactLoop ytSearch a t _ _ hsearch (by simp)
      (by rw [exactLoop_append_skip a t pre _ hpre,
              exactLoop_cons_video a t r post vid hs hv2 hvid])

/-- C3 witness: the single-pass selection applied to the concrete list
with the exact video match first. -/
theorem c3_single_pass_selection_witness :
    get_youtube_music_data true ytSearchVideoFirst "A" "T" =
      some [("views", JVal.nat 5),
            ("url", JVal.str "https://www.youtube.com/watch?v=vv")] :=
  (c3_single_pass_selection ytSearchVideoFirst "A" "T" [] [sExact] vExact "vv"
    rfl (by simp) rfl).2 rfl rfl

/-- C4 counterexample: fZero has resultType song and a PRESENT views
count (0), the list holds no exact match, yet the resolver returns
nothing: Python truthiness makes the fallback skip a present-but-zero
views count, so the claim as stated fails. -/
theorem c4_zero_views_skipped_cex :
    fZero.resultType = some "song" ∧ fZero.views = some 0 ∧
    (∀ x ∈ [fZero], exactMatchB "song" "A" "T" x = false ∧
        exactMatchB "video" "A" "T" x = false) ∧
    get_youtube_music_data true ytSearchZeroViews "A" "T" = none := by
  refine ⟨rfl, rfl, ?_, rfl⟩
  decide

/-- C4 (amended): for every result list with no exact match in which
some entry has resultType song and a TRUTHY (present and nonzero) views
count, the fallback selects the first such entry regardless of its
artist and title and, its videoId being present, builds the URL with the
music-service scheme. -/
theorem c4_fallback_first_truthy_views
    (ytSearch : String → Except Unit (List YTResult)) (a t : String)
    (pre post : List YTResult) (f : YTResult) (vid : String)
    (hsearch : ytSearch (ytQuery a t) = Except.ok (pre ++ f :: post))
    (hnoexact : ∀ x ∈ pre ++ f :: post,
        exactMatchB "song" a t x = false ∧ exactMatchB "video" a t x = false)
    (hpre : ∀ x ∈ pre, fallbackCond x = false)
    (hf : fallbackCond f = true) (hvid : f.videoId = some vid) :
    get_youtube_music_data true ytSearch a t =
      some [("views", jOfViews f.views),
            ("url", JVal.str ("https://music.youtube.com/watch?v=" ++ vid))] := by
  apply get_yt_of_fallback ytSearch a t _ _ hsearch (by simp)
  · exact exactLoop_none_of_all a t _ hnoexact
  · rw [fallbackLoop_append_skip pre _ hpre, fallbackLoop_cons_sel f post vid hf hvid]

/-- C4 witness: the amended fallback theorem applied to the concrete
list holding a zero-views song then a nonzero-views song: the second
entry is the first truthy one and is selected. -/
theorem c4_fallback_first_truthy_views_witness :
    get_youtube_music_data true ytSearchFallback "A" "T" =
      some [("views", JVal.nat 9),
            ("url", JVal.str "https://music.youtube.com/watch?v=fv")] :=
  c4_fallback_first_truthy_views ytSearchFallback "A" "T" [fZero] [] fGood "fv"
    rfl (by decide) (by decide) rfl rfl

/-- C5: the aggregator is a total function of the query and the two
backend behaviours (every exception of a backend call is an Except.error
value consumed before the record is built, so nothing propagates), it
preserves artist and title, and every failed (raising) or empty lookup
shows up only as an empty dictionary in the corresponding field. -/
theorem c5_failures_degrade_to_empty
    (spSearch : String → Except Unit (List SpotifyTrack)) (ytInit : Bool)
    (ytSearch : String → Except Unit (List YTResult)) (a t : String) :
    (get_streaming_data spSearch ytInit ytSearch a t).artist = a ∧
    (get_streaming_data spSearch ytInit ytSearch a t).title = t ∧
    (spSearch (spotifyQuery a t) = Except.error () →
      (get_streaming_data spSearch ytInit ytSearch a t).spotify = []) ∧
    (ytSearch (ytQuery a t) = Except.error () →
      (get_streaming_data spSearch ytInit ytSearch a t).youtube_music = []) ∧
    (get_spotify_data spSearch a t = none →
      (get_streaming_data spSearch ytInit ytSearch a t).spotify = []) ∧
    (get_youtube_music_data ytInit ytSearch a t = none →
      (get_streaming_data spSearch ytInit ytSearch a t).youtube_music = []) := by
  refine ⟨rfl, rfl, ?_, ?_, ?_, ?_⟩
  · intro h
    simp [get_streaming_data, get_spotify_data, h, assignIfTruthy]
  · intro h
    cases ytInit with
    | false => simp [get_streaming_data, get_youtube_music_data, assignIfTruthy]
    | true => simp [get_streaming_data, get_youtube_music_data, h, assignIfTruthy]
  · intro h
    simp [get_streaming_data, h, assignIfTruthy]
  · intro h
    simp [get_streaming_data, h, assignIfTruthy]

/-- C5 witness: both backends raising, the record still comes back with
the query echoed and two empty dictionaries. -/
theorem c5_failures_degrade_to_empty_witness :
    (get_streaming_data spSearchErr true ytSearchErr "A" "T").artist = "A" ∧
    (get_streaming_data spSearchErr true ytSearchErr "A" "T").title = "T" ∧
    (get_streaming_data spSearchErr true ytSearchErr "A" "T").spotify = [] ∧
    (get_streaming_data spSearchErr true ytSearchErr "A" "T").youtube_music = [] := by
  have h := c5_failures_degrade_to_empty spSearchErr true ytSearchErr "A" "T"
  exact ⟨h.1, h.2.1, h.2.2.1 rfl, h.2.2.2.1 rfl⟩

/-- C6: when backend A raises or returns no items and backend B yields
no usable candidate (raises, is unavailable or selects nothing), the
aggregate record is exactly the four-key record with both backend fields
present as empty dictionaries. -/
theorem c6_both_empty_record
    (spSearch : String → Except Unit (List SpotifyTrack)) (ytInit : Bool)
    (ytSearch : String → Except Unit (List YTResult)) (a t : String)
    (hA : spSearch (spotifyQuery a t) = Except.error () ∨
        spSearch (spotifyQuery a t) = Except.ok [])
    (hB : get_youtube_music_data ytInit ytSearch a t = none) :
    get_streaming_data spSearch ytInit ytSearch a t =
      { artist := a, title := t, spotify := [], youtube_music := [] } := by
  have hsp : get_spotify_data spSearch a t = none := by
    unfold get_spotify_data
    rcases hA with h | h <;> rw [h]
  simp [get_streaming_data, hsp, hB, assignIfTruthy]

/-- C6 witness: both backends raising for the query (ArtistX, TitleY). -/
theorem c6_both_empty_record_witness :
    get_streaming_data spSearchErr true ytSearchErr "ArtistX" "TitleY" =
      { artist := "ArtistX", title := "TitleY",
        spotify := [], youtube_music := [] } :=
  c6_both_empty_record spSearchErr true ytSearchErr "ArtistX" "TitleY"
    (Or.inl rfl) rfl

/-- C7: with the backend-B collaborator uninitialized (self.yt is None),
every lookup on that path returns None and the youtube_music field of
every aggregate record is the empty dictionary. -/
theorem c7_uninitialized_backend_b_empty
    (spSearch : String → Except Unit (List SpotifyTrack))
    (ytSearch : String → Except Unit (List YTResult)) (a t : String) :
    get_youtube_music_data false ytSearch a t = none ∧
    (get_streaming_data spSearch false ytSearch a t).youtube_music = [] := by
  exact ⟨rfl, rfl⟩

/-- C8: the aggregation is a deterministic function of the query and of
the backend responses to it: two backend behaviours agreeing on the
queried strings produce equal aggregate records. -/
theorem c8_deterministic_in_responses
    (spSearch spSearch2 : String → Except Unit (List SpotifyTrack))
    (ytInit : Bool) (ytSearch ytSearch2 : String → Except Unit (List YTResult))
    (a t : String)
    (hsp : spSearch (spotifyQuery a t) = spSearch2 (spotifyQuery a t))
    (hyt : ytSearch (ytQuery a t) = ytSearch2 (ytQuery a t)) :
    get_streaming_data spSearch ytInit ytSearch a t =
      get_streaming_data spSearch2 ytInit ytSearch2 a t := by
  simp [get_streaming_data, get_spotify_data, get_youtube_music_data, hsp, hyt]

/-- A second backend-A behaviour that agrees with spSearchC on the
query of (A, T) and differs elsewhere. -/
def spSearchCAgree : String → Except Unit (List SpotifyTrack) :=
  fun q => if q = spotifyQuery "A" "T" then .ok [spTrackC] else .error ()

/-- C8 witness: two pointwise different behaviours agreeing on the
actual query give identical records. -/
theorem c8_deterministic_in_responses_witness :
    get_streaming_data spSearchC true ytSearchErr "A" "T" =
      get_streaming_data spSearchCAgree true ytSearchErr "A" "T" :=
  c8_deterministic_in_responses spSearchC spSearchCAgree true
    ytSearchErr ytSearchErr "A" "T" (by simp [spSearchC, spSearchCAgree]) rfl

/-- C9: an entry whose artists list is absent or empty fails both
exact-match tests (the truthiness guard short-circuits before the
index-0 access), the exact pass skips such an entry, and the exact-match
test never reaches its IndexError branches for any entry at all. -/
theorem c9_absent_artists_never_exact
    (a t rt : String) (r x : YTResult) (rs : List YTResult)
    (h : r.artists = none ∨ r.artists = some []) :
    exactMatch "song" a t r = Except.ok false ∧
    exactMatch "video" a t r = Except.ok false ∧
    exactLoop a t (r :: rs) = exactLoop a t rs ∧
    ∃ b, exactMatch rt a t x = Except.ok b := by
  have hfalse : ∀ rt2 : String, exactMatchB rt2 a t r = false := by
    intro rt2
    rcases h with h | h <;> simp [exactMatchB, artistsTruthy, h]
  refine ⟨?_, ?_, ?_, ?_⟩
  · rw [exactMatch_eq, hfalse]
  · rw [exactMatch_eq, hfalse]
  · exact exactLoop_cons_skip a t r rs (hfalse "song") (hfalse "video")
  · exact ⟨exactMatchB rt a t x, exactMatch_eq rt a t x⟩

/-- C9 witness: a song entry with artists absent, in front of an exact
match, is skipped without an error. -/
theorem c9_absent_artists_never_exact_witness :
    exactMatch "song" "A" "T" rNoArtists = Except.ok false ∧
    exactMatch "video" "A" "T" rNoArtists = Except.ok false ∧
    exactLoop "A" "T" (rNoArtists :: [sExact]) = exactLoop "A" "T" [sExact] ∧
    ∃ b, exactMatch "song" "A" "T" rNoArtists = Except.ok b :=
  c9_absent_artists_never_exact "A" "T" "song" rNoArtists rNoArtists [sExact]
    (Or.inl rfl)

/-- C10: a selected candidate lacking a directly indexed field makes the
lookup return None instead of letting the exception escape: on backend A
any of the four missing fields of the first item, on backend B a raised
KeyError inside the selection body (its only source is the videoId index
of a selected entry, since the exact-match tests never raise). -/
theorem c10_missing_indexed_fields_degrade
    (a t : String)
    (spSearch : String → Except Unit (List SpotifyTrack))
    (ytSearch : String → Except Unit (List YTResult)) :
    (∀ track rest, spSearch (spotifyQuery a t) = Except.ok (track :: rest) →
      (track.popularity = none ∨ track.external_url = none ∨
        track.album_name = none ∨ track.release_date = none) →
      get_spotify_data spSearch a t = none) ∧
    (∀ results, ytSearch (ytQuery a t) = Except.ok results →
      ytBody a t results = Except.error () →
      get_youtube_music_data true ytSearch a t = none) := by
  constructor
  · intro track rest hsearch hmiss
    unfold get_spotify_data
    rw [hsearch]
    simp [spotifyProject_error_of track hmiss]
  · intro results hsearch herr
    simp [get_youtube_music_data, hsearch, herr]

/-- C10 witness: a first item missing its popularity key on backend A,
and an exact song match missing its videoId key on backend B, both
collapse to None. -/
theorem c10_missing_indexed_fields_degrade_witness :
    get_spotify_data spSearchMissing "A" "T" = none ∧
    get_youtube_music_data true ytSearchVidMissing "A" "T" = none := by
  have h := c10_missing_indexed_fields_degrade "A" "T" spSearchMissing
    ytSearchVidMissing
  exact ⟨h.1 spTrackMissing [] rfl (Or.inl rfl), h.2 [sVidMissing] rfl rfl⟩
